import Mathlib

/-!
Verification of the real-time WebSocket subscription/fan-out layer of the
1inchProHub repository: a shallow embedding of the server fan-out hub
(src/server/services/websocket.ts) and of the client channel manager
(src/client/src/hooks/use-websocket.ts), with theorems settling the frozen
claims about subscription merging, heartbeat sweeping, reconnect backoff,
filtered broadcast, the client singleton, and error handling.

Connections are identified by natural numbers; the registry Map of the hub
becomes an association list with Map set/get semantics; a socket readyState
is a Nat with the usual constants; message payloads become a small inductive
covering the payload shapes the hub actually constructs.  JSON parsing at the
transport boundary is modelled by handing the handlers an `Option` value:
`none` is a frame whose payload failed to parse (the catch branch of the
source), `some m` a successfully parsed envelope.
-/

namespace Hub

/-- Socket readyState constants of the `ws` library / browser WebSocket. -/
def CONNECTING : Nat := 0

def OPEN : Nat := 1

def CLOSING : Nat := 2

def CLOSED : Nat := 3

/-- The shape of the `data` field of `subscribe` / `unsubscribe` messages
(interface `SubscriptionData` in websocket.ts).  A field set to `none`
models a JSON object in which that key is absent. -/
structure SubscriptionData where
  userId : Option String := none
  walletAddress : Option String := none
  tokens : Option (List String) := none
  pairs : Option (List String) := none
deriving DecidableEq, Repr

/-- The per-connection record the hub stores in its `clients` map:
`SubscriptionData & \x7b lastPing?: number \x7d`. -/
structure ClientData where
  userId : Option String := none
  walletAddress : Option String := none
  tokens : Option (List String) := none
  pairs : Option (List String) := none
  lastPing : Option Nat := none
deriving DecidableEq, Repr

/-- Payloads of outbound envelopes, one constructor per payload shape the
hub constructs (`data : any` on the wire). -/
inductive MsgData where
  | connectionStatus (status : String)
  | subscriptionConfirmed (subs : SubscriptionData) (ts : Nat)
  | unsubscriptionConfirmed (subs : SubscriptionData)
  | pongData (ts : Nat)
  | heartbeatData (ts : Nat)
  | errorData (message : String)
  | priceUpdateData (tokens : List String) (ts : Nat)
  | initialPricesData (tokens : List String) (ts : Nat)
  | payload (s : String)
deriving DecidableEq, Repr

/-- The wire envelope (interface `WebSocketMessage`): type, data, timestamp. -/
structure WebSocketMessage where
  type : String
  data : MsgData
  timestamp : Nat
deriving DecidableEq, Repr

/-- An inbound, successfully parsed client message, as destructured by
`handleMessage`: a `type` tag plus the subscription-shaped `data`. -/
structure InMessage where
  type : String
  data : SubscriptionData
deriving DecidableEq, Repr

/-- Hub state: the `clients` registry (connection id ↦ record, with Map
set/get semantics) together with the set of connection ids whose socket
readyState is OPEN. -/
structure ServerState where
  clients : List (Nat × ClientData)
  openConns : List Nat
deriving DecidableEq, Repr

/-- `ws.readyState === WebSocket.OPEN` for a connection id. -/
def isOpen (st : ServerState) (ws : Nat) : Bool :=
  st.openConns.contains ws

/-- `Map.set`: replace the binding of `k` if present, else append it. -/
def setClient (k : Nat) (v : ClientData) : List (Nat × ClientData) → List (Nat × ClientData)
  | [] => [(k, v)]
  | (k', v') :: rest => if k' = k then (k, v) :: rest else (k', v') :: setClient k v rest

/-- `sendMessage`: wrap in an envelope stamped `now` and transmit, but only
if the socket is OPEN; otherwise transmit nothing. -/
def sendMessage (st : ServerState) (ws : Nat) (type : String) (d : MsgData) (now : Nat) :
    List (Nat × WebSocketMessage) :=
  if isOpen st ws then [(ws, ⟨type, d, now⟩)] else []

/-- `sendError`: an `error` envelope with a message payload. -/
def sendError (st : ServerState) (ws : Nat) (error : String) (now : Nat) :
    List (Nat × WebSocketMessage) :=
  sendMessage st ws "error" (.errorData error) now

/-- The record produced by `handleSubscription`'s spread
`\x7b ...clientData, ...data \x7d`: every field present in `data` overwrites
the stored one, absent fields keep the stored value; `lastPing` is not a
`SubscriptionData` field and survives unchanged. -/
def subscribeRecord (cd : ClientData) (d : SubscriptionData) : ClientData :=
  { userId := d.userId <|> cd.userId
    walletAddress := d.walletAddress <|> cd.walletAddress
    tokens := d.tokens <|> cd.tokens
    pairs := d.pairs <|> cd.pairs
    lastPing := cd.lastPing }

/-- `handleSubscription`: read the record (or a fresh empty one), spread the
message data over it, store it back, confirm, and push initial prices when a
non-empty tokens array was provided. -/
def handleSubscription (now : Nat) (st : ServerState) (ws : Nat) (d : SubscriptionData) :
    ServerState × List (Nat × WebSocketMessage) :=
  let cd := (st.clients.lookup ws).getD {}
  let st' : ServerState := { st with clients := setClient ws (subscribeRecord cd d) st.clients }
  let ev1 := sendMessage st' ws "subscription_confirmed" (.subscriptionConfirmed d now) now
  let ev2 := match d.tokens with
    | some ts =>
        if ts.length > 0 then
          sendMessage st' ws "initial_prices" (.initialPricesData ts now) now
        else []
    | none => []
  (st', ev1 ++ ev2)

/-- The record produced by `handleUnsubscription`: when a `tokens` (resp.
`pairs`) array is provided — JS truthiness, so even an empty array counts —
the stored array, if any, is filtered to drop the listed elements. -/
def unsubscribeRecord (cd : ClientData) (d : SubscriptionData) : ClientData :=
  let cd1 := match d.tokens with
    | some r => { cd with tokens := cd.tokens.map (fun l => l.filter (fun t => !r.contains t)) }
    | none => cd
  match d.pairs with
  | some r => { cd1 with pairs := cd1.pairs.map (fun l => l.filter (fun p => !r.contains p)) }
  | none => cd1

/-- `handleUnsubscription`: filter the stored record if the connection is
registered, then confirm. -/
def handleUnsubscription (now : Nat) (st : ServerState) (ws : Nat) (d : SubscriptionData) :
    ServerState × List (Nat × WebSocketMessage) :=
  let st' : ServerState := match st.clients.lookup ws with
    | some cd => { st with clients := setClient ws (unsubscribeRecord cd d) st.clients }
    | none => st
  (st', sendMessage st' ws "unsubscription_confirmed" (.unsubscriptionConfirmed d) now)

/-- `handleMessage`: dispatch on the envelope's type tag; `ping` records
`lastPing := now` and answers `pong`; anything unknown gets an error reply
and touches nothing. -/
def handleMessage (now : Nat) (st : ServerState) (ws : Nat) (m : InMessage) :
    ServerState × List (Nat × WebSocketMessage) :=
  if m.type = "subscribe" then handleSubscription now st ws m.data
  else if m.type = "unsubscribe" then handleUnsubscription now st ws m.data
  else if m.type = "ping" then
    let st' : ServerState := match st.clients.lookup ws with
      | some cd => { st with clients := setClient ws { cd with lastPing := some now } st.clients }
      | none => st
    (st', sendMessage st' ws "pong" (.pongData now) now)
  else (st, sendError st ws ("Unknown message type: " ++ m.type) now)

/-- The `ws.on message` handler: `JSON.parse` inside try/catch.  `none` is a
frame whose payload failed to parse — the catch branch logs and answers with
an error envelope, touching no state; `some m` goes to `handleMessage`. -/
def onRawMessage (now : Nat) (st : ServerState) (ws : Nat) (parsed : Option InMessage) :
    ServerState × List (Nat × WebSocketMessage) :=
  match parsed with
  | some m => handleMessage now st ws m
  | none => (st, sendError st ws "Invalid message format" now)

/-- A sequence of raw frames, each with its arrival time, target connection
and parse result, processed in order. -/
def processFrames (st : ServerState) :
    List (Nat × Nat × Option InMessage) → ServerState × List (Nat × WebSocketMessage)
  | [] => (st, [])
  | (now, ws, p) :: rest =>
    let r := onRawMessage now st ws p
    let r' := processFrames r.1 rest
    (r'.1, r.2 ++ r'.2)

/-- `broadcast`: iterate the registry, sending to every client whose record
passes the filter (transmission itself still requires an OPEN socket). -/
def broadcast (now : Nat) (st : ServerState) (type : String) (d : MsgData)
    (filt : ClientData → Bool) : List (Nat × WebSocketMessage) :=
  st.clients.flatMap fun p => if filt p.2 then sendMessage st p.1 type d now else []

/-- One batch step of the price-poll tick of `startPriceUpdates`: broadcast
the batch's `price_update` to clients whose tokens filter meets the batch
(`clientData.tokens?.some(token => tokenBatch.includes(token))`). -/
def priceUpdateEvents (now : Nat) (st : ServerState) (tokenBatch : List String) :
    List (Nat × WebSocketMessage) :=
  broadcast now st "price_update" (.priceUpdateData tokenBatch now)
    (fun cd => (cd.tokens.getD []).any (fun t => tokenBatch.contains t))

/-- `sendPortfolioUpdate`: broadcast filtered on `clientData.userId === userId`. -/
def sendPortfolioUpdate (now : Nat) (st : ServerState) (userId : String) (p : String) :
    List (Nat × WebSocketMessage) :=
  broadcast now st "portfolio_update" (.payload p) (fun cd => cd.userId == some userId)

/-- `sendStrategyUpdate`: broadcast filtered on `clientData.userId === userId`. -/
def sendStrategyUpdate (now : Nat) (st : ServerState) (userId : String) (p : String) :
    List (Nat × WebSocketMessage) :=
  broadcast now st "strategy_update" (.payload p) (fun cd => cd.userId == some userId)

/-- `sendNotification`: broadcast filtered on `clientData.userId === userId`. -/
def sendNotification (now : Nat) (st : ServerState) (userId : String) (p : String) :
    List (Nat × WebSocketMessage) :=
  broadcast now st "notification" (.payload p) (fun cd => cd.userId == some userId)

/-- Staleness test of the heartbeat sweep: a connection is collected for
cleanup when its socket is not OPEN, or when it is OPEN and
`clientData.lastPing && now - clientData.lastPing > 60000` — note the
truthiness guard: a record whose `lastPing` was never set is NOT stale. -/
def isStale (now : Nat) (st : ServerState) (ws : Nat) (cd : ClientData) : Bool :=
  if isOpen st ws then
    match cd.lastPing with
    | some p => decide (60000 < now - p)
    | none => false
  else true

/-- One sweep of `startHeartbeat`'s interval callback: send `heartbeat` to
every OPEN connection, collect the stale ones, delete them from the registry
and terminate those whose socket was still OPEN. -/
def heartbeatSweep (now : Nat) (st : ServerState) :
    ServerState × List (Nat × WebSocketMessage) :=
  let heartbeats := st.clients.flatMap fun p =>
    if isOpen st p.1 then sendMessage st p.1 "heartbeat" (.heartbeatData now) now else []
  let stale := (st.clients.filter fun p => isStale now st p.1 p.2).map Prod.fst
  let st' : ServerState :=
    { clients := st.clients.filter fun p => !isStale now st p.1 p.2
      openConns := st.openConns.filter fun ws => !stale.contains ws }
  (st', heartbeats)

end Hub

namespace Client

/-- The parse step of the client's `handleMessage` callback: `JSON.parse`
inside try/catch.  `none` (parse failure) is logged and dropped — no
callback invocation; `some m` yields one `onMessage` invocation. -/
def handleMessage (parsed : Option Hub.WebSocketMessage) : List Hub.WebSocketMessage :=
  match parsed with
  | some m => [m]
  | none => []

/-- A sequence of inbound frames dispatched through `handleMessage`: the
list of `onMessage` invocations, in order. -/
def dispatchFrames (frames : List (Option Hub.WebSocketMessage)) : List Hub.WebSocketMessage :=
  frames.flatMap handleMessage

/-- The singleton-guard of `connect()`: the module-level `globalWs`
reference, modelled by the readyState of the transport it holds (`none` when
the reference is null).  Returns the new reference together with whether a
new transport was opened; a fresh browser WebSocket starts CONNECTING. -/
def connect (globalWs : Option Nat) : Option Nat × Bool :=
  match globalWs with
  | some rs =>
      if rs = Hub.OPEN then (some rs, false)
      else if rs = Hub.CONNECTING then (some rs, false)
      else (some Hub.CONNECTING, true)
  | none => (some Hub.CONNECTING, true)

/-- `WEBSOCKET_RECONNECT_INTERVAL` from the client constants. -/
def WEBSOCKET_RECONNECT_INTERVAL : Nat := 5000

/-- `maxReconnectAttempts` of the hook. -/
def maxReconnectAttempts : Nat := 10

/-- The reconnect portion of the `ws.onclose` handler, on the attempt
counter: with `reconnect` enabled and fewer than 10 recorded attempts, the
counter is incremented FIRST and a timer is scheduled for
`base * 2 ^ min attempts 5` ms; otherwise nothing is scheduled. -/
def onCloseReconnect (base : Nat) (reconnect : Bool) (attempts : Nat) : Nat × Option Nat :=
  if reconnect && decide (attempts < maxReconnectAttempts) then
    let a := attempts + 1
    (a, some (base * 2 ^ min a 5))
  else (attempts, none)

/-- `k` consecutive close events with `reconnect` enabled, starting from a
fresh counter (0, as reset by `onopen`): final counter and the per-close
scheduled delay (`none` when no timer was scheduled). -/
def runCloses (base : Nat) : Nat → Nat × List (Option Nat)
  | 0 => (0, [])
  | k + 1 =>
    let r := runCloses base k
    let r' := onCloseReconnect base true r.1
    (r'.1, r.2 ++ [r'.2])

/-- `sendMessage` of the hook: transmit a stamped envelope and return true
only when `globalWs?.readyState === WebSocket.OPEN`; otherwise return false
and transmit nothing.  Payload modelled opaquely as a string. -/
def sendMessage (globalWs : Option Nat) (type : String) (p : String) (now : Nat) :
    Bool × Option Hub.WebSocketMessage :=
  if globalWs == some Hub.OPEN then (true, some ⟨type, .payload p, now⟩) else (false, none)

end Client

namespace SpecSide

/-- Spec-side fold of one array field over a subscribe/unsubscribe trace,
as the code implements it: a subscribe whose message provides the field
REPLACES the stored array wholesale, an unsubscribe removes the listed
elements from it.  `true` tags a subscribe, `false` an unsubscribe; each
step carries the field the message provided (if any). -/
def replaceDiffFold : Option (List String) → List (Bool × Option (List String)) → Option (List String)
  | t, [] => t
  | t, (true, d) :: rest => replaceDiffFold (d <|> t) rest
  | t, (false, d) :: rest =>
    replaceDiffFold
      (match d with
       | some r => t.map (fun l => l.filter (fun x => !r.contains x))
       | none => t) rest

/-- Duplicate-free union on lists, keeping first-occurrence order. -/
def listUnion (a b : List String) : List String :=
  a ++ b.filter (fun x => !a.contains x)

/-- The CLAIMED fold (written from the spec's words, to be compared with
the code): additive set-union on subscribe, set-difference on unsubscribe. -/
def unionDiffFold : List String → List (Bool × Option (List String)) → List String
  | t, [] => t
  | t, (true, d) :: rest => unionDiffFold (listUnion t (d.getD [])) rest
  | t, (false, d) :: rest => unionDiffFold (t.filter (fun x => !(d.getD []).contains x)) rest

end SpecSide

namespace Hub

/-- A subscribe or unsubscribe message, as a trace element for one connection. -/
inductive SubMsg where
  | sub (d : SubscriptionData)
  | unsub (d : SubscriptionData)
deriving DecidableEq, Repr

/-- The trace element's field selector for tokens, for the spec-side fold. -/
def SubMsg.tokensStep : SubMsg → Bool × Option (List String)
  | .sub d => (true, d.tokens)
  | .unsub d => (false, d.tokens)

/-- The trace element's field selector for pairs, for the spec-side fold. -/
def SubMsg.pairsStep : SubMsg → Bool × Option (List String)
  | .sub d => (true, d.pairs)
  | .unsub d => (false, d.pairs)

/-- Run a subscribe/unsubscribe trace for connection `ws` through the real
handlers, in order. -/
def applyFilterMsgs (now : Nat) (ws : Nat) : ServerState → List SubMsg → ServerState
  | st, [] => st
  | st, .sub d :: rest => applyFilterMsgs now ws (handleSubscription now st ws d).1 rest
  | st, .unsub d :: rest => applyFilterMsgs now ws (handleUnsubscription now st ws d).1 rest

/-- The tokens filter connection `ws` ends up with in a state. -/
def tokensOf (st : ServerState) (ws : Nat) : Option (List String) :=
  ((st.clients.lookup ws).getD {}).tokens

/-- The pairs filter connection `ws` ends up with in a state. -/
def pairsOf (st : ServerState) (ws : Nat) : Option (List String) :=
  ((st.clients.lookup ws).getD {}).pairs

end Hub

namespace Hub

theorem lookup_setClient_self (k : Nat) (v : ClientData) (l : List (Nat × ClientData)) :
    (setClient k v l).lookup k = some v := by
  induction l with
  | nil => simp [setClient, List.lookup]
  | cons p rest ih =>
    obtain ⟨k', v'⟩ := p
    by_cases h : k' = k
    · simp [setClient, h, List.lookup]
    · simp only [setClient, if_neg h, List.lookup]
      have : (k == k') = false := by simp [Ne.symm h]
      simp [this, ih]

theorem tokensOf_handleSubscription (now : Nat) (st : ServerState) (ws : Nat)
    (d : SubscriptionData) :
    tokensOf (handleSubscription now st ws d).1 ws = (d.tokens <|> tokensOf st ws) := by
  simp [handleSubscription, tokensOf, lookup_setClient_self, subscribeRecord]

theorem pairsOf_handleSubscription (now : Nat) (st : ServerState) (ws : Nat)
    (d : SubscriptionData) :
    pairsOf (handleSubscription now st ws d).1 ws = (d.pairs <|> pairsOf st ws) := by
  simp [handleSubscription, pairsOf, lookup_setClient_self, subscribeRecord]

theorem tokensOf_handleUnsubscription (now : Nat) (st : ServerState) (ws : Nat)
    (d : SubscriptionData) :
    tokensOf (handleUnsubscription now st ws d).1 ws =
      match d.tokens with
      | some r => (tokensOf st ws).map (fun l => l.filter (fun x => !r.contains x))
      | none => tokensOf st ws := by
  unfold handleUnsubscription
  cases h : st.clients.lookup ws with
  | none => cases d.tokens <;> simp [tokensOf, h]
  | some cd =>
    cases htk : d.tokens <;> cases hpr : d.pairs <;>
      simp [tokensOf, h, lookup_setClient_self, unsubscribeRecord, htk, hpr]

theorem pairsOf_handleUnsubscription (now : Nat) (st : ServerState) (ws : Nat)
    (d : SubscriptionData) :
    pairsOf (handleUnsubscription now st ws d).1 ws =
      match d.pairs with
      | some r => (pairsOf st ws).map (fun l => l.filter (fun x => !r.contains x))
      | none => pairsOf st ws := by
  unfold handleUnsubscription
  cases h : st.clients.lookup ws with
  | none => cases d.pairs <;> simp [pairsOf, h]
  | some cd =>
    cases htk : d.tokens <;> cases hpr : d.pairs <;>
      simp [pairsOf, h, lookup_setClient_self, unsubscribeRecord, htk, hpr]

/-- C1 (amended): over any subscribe/unsubscribe trace on one connection,
the resulting tokens and pairs filters equal the in-order fold in which a
subscribe message that provides an array field REPLACES the stored array
wholesale (no union, duplicates preserved) and an unsubscribe removes
exactly the listed elements; a subscribe does NOT merge additively. -/
theorem C1_subscribe_replaces_fold (now ws : Nat) (st : ServerState) (msgs : List SubMsg) :
    tokensOf (applyFilterMsgs now ws st msgs) ws
        = SpecSide.replaceDiffFold (tokensOf st ws) (msgs.map SubMsg.tokensStep)
      ∧ pairsOf (applyFilterMsgs now ws st msgs) ws
        = SpecSide.replaceDiffFold (pairsOf st ws) (msgs.map SubMsg.pairsStep) := by
  induction msgs generalizing st with
  | nil => simp [applyFilterMsgs, SpecSide.replaceDiffFold]
  | cons m rest ih =>
    cases m with
    | sub d =>
      refine ⟨?_, ?_⟩
      · have h := (ih (handleSubscription now st ws d).1).1
        simp only [applyFilterMsgs, List.map_cons, SubMsg.tokensStep,
          SpecSide.replaceDiffFold]
        rw [h, tokensOf_handleSubscription]
      · have h := (ih (handleSubscription now st ws d).1).2
        simp only [applyFilterMsgs, List.map_cons, SubMsg.pairsStep,
          SpecSide.replaceDiffFold]
        rw [h, pairsOf_handleSubscription]
    | unsub d =>
      refine ⟨?_, ?_⟩
      · have h := (ih (handleUnsubscription now st ws d).1).1
        simp only [applyFilterMsgs, List.map_cons, SubMsg.tokensStep,
          SpecSide.replaceDiffFold]
        rw [h, tokensOf_handleUnsubscription]
      · have h := (ih (handleUnsubscription now st ws d).1).2
        simp only [applyFilterMsgs, List.map_cons, SubMsg.pairsStep,
          SpecSide.replaceDiffFold]
        rw [h, pairsOf_handleUnsubscription]

/-- C1 counterexample: on the trace subscribe tokens ETH, then subscribe
tokens BTC, the claimed union/difference fold yields a filter containing
ETH, but the code leaves the connection with tokens BTC only — the second
subscribe replaced rather than additively merged the tokens array. -/
theorem C1_counterexample :
    "ETH" ∈ SpecSide.unionDiffFold []
        ([SubMsg.sub { tokens := some ["ETH"] },
          SubMsg.sub { tokens := some ["BTC"] }].map SubMsg.tokensStep)
      ∧ tokensOf
          (applyFilterMsgs 0 0 ⟨[(0, {})], [0]⟩
            [SubMsg.sub { tokens := some ["ETH"] },
             SubMsg.sub { tokens := some ["BTC"] }]) 0 = some ["BTC"]
      ∧ "ETH" ∉ (tokensOf
          (applyFilterMsgs 0 0 ⟨[(0, {})], [0]⟩
            [SubMsg.sub { tokens := some ["ETH"] },
             SubMsg.sub { tokens := some ["BTC"] }]) 0).getD [] := by
  refine ⟨by decide, by decide, by decide⟩

/-- C6: an unsubscribe on a registered connection removes from the tokens
and pairs arrays exactly the listed elements — an element survives iff it
was there and is not listed — and leaves userId, walletAddress and lastPing
untouched. -/
theorem C6_unsubscribe_exact (now : Nat) (st : ServerState) (ws : Nat) (cd : ClientData)
    (d : SubscriptionData) (x : String) (h : st.clients.lookup ws = some cd) :
    (((handleUnsubscription now st ws d).1.clients.lookup ws).getD {}).userId = cd.userId
    ∧ (((handleUnsubscription now st ws d).1.clients.lookup ws).getD {}).walletAddress
        = cd.walletAddress
    ∧ (((handleUnsubscription now st ws d).1.clients.lookup ws).getD {}).lastPing = cd.lastPing
    ∧ (x ∈ ((((handleUnsubscription now st ws d).1.clients.lookup ws).getD {}).tokens.getD [])
        ↔ x ∈ (cd.tokens.getD []) ∧ x ∉ (d.tokens.getD []))
    ∧ (x ∈ ((((handleUnsubscription now st ws d).1.clients.lookup ws).getD {}).pairs.getD [])
        ↔ x ∈ (cd.pairs.getD []) ∧ x ∉ (d.pairs.getD [])) := by
  have hrec : (handleUnsubscription now st ws d).1.clients.lookup ws
      = some (unsubscribeRecord cd d) := by
    simp [handleUnsubscription, h, lookup_setClient_self]
  rw [hrec]
  cases htk : d.tokens <;> cases hpr : d.pairs <;>
    cases hct : cd.tokens <;> cases hcp : cd.pairs <;>
      simp [unsubscribeRecord, htk, hpr, hct, hcp, List.mem_filter, and_assoc]

/-- C6 witness: unsubscribing tokens ETH from a stored filter with tokens
ETH and BTC keeps BTC and drops nothing else. -/
theorem C6_unsubscribe_exact_witness :
    ((((handleUnsubscription 5 ⟨[(0, { tokens := some ["ETH", "BTC"] })], [0]⟩ 0
          { tokens := some ["ETH"] }).1.clients.lookup 0).getD {}).userId
        = ({ tokens := some ["ETH", "BTC"] } : ClientData).userId
    ∧ ((((handleUnsubscription 5 ⟨[(0, { tokens := some ["ETH", "BTC"] })], [0]⟩ 0
          { tokens := some ["ETH"] }).1.clients.lookup 0).getD {}).walletAddress
        = ({ tokens := some ["ETH", "BTC"] } : ClientData).walletAddress
    ∧ (((handleUnsubscription 5 ⟨[(0, { tokens := some ["ETH", "BTC"] })], [0]⟩ 0
          { tokens := some ["ETH"] }).1.clients.lookup 0).getD {}).lastPing
        = ({ tokens := some ["ETH", "BTC"] } : ClientData).lastPing
    ∧ ("BTC" ∈ ((((handleUnsubscription 5 ⟨[(0, { tokens := some ["ETH", "BTC"] })], [0]⟩ 0
          { tokens := some ["ETH"] }).1.clients.lookup 0).getD {}).tokens.getD [])
        ↔ "BTC" ∈ (({ tokens := some ["ETH", "BTC"] } : ClientData).tokens.getD [])
            ∧ "BTC" ∉ (({ tokens := some ["ETH"] } : SubscriptionData).tokens.getD []))
    ∧ ("BTC" ∈ ((((handleUnsubscription 5 ⟨[(0, { tokens := some ["ETH", "BTC"] })], [0]⟩ 0
          { tokens := some ["ETH"] }).1.clients.lookup 0).getD {}).pairs.getD [])
        ↔ "BTC" ∈ (({ tokens := some ["ETH", "BTC"] } : ClientData).pairs.getD [])
            ∧ "BTC" ∉ (({ tokens := some ["ETH"] } : SubscriptionData).pairs.getD [])))) :=
  C6_unsubscribe_exact 5 ⟨[(0, { tokens := some ["ETH", "BTC"] })], [0]⟩ 0
    { tokens := some ["ETH", "BTC"] } { tokens := some ["ETH"] } "BTC" (by decide)

end Hub

namespace Hub

/-- C10: a well-formed message whose type is none of subscribe, unsubscribe
or ping leaves the whole registry untouched, and — when the connection is
open — is answered by exactly one error envelope whose payload message is
"Unknown message type: " followed by the offending type. -/
theorem C10_unknown_type (now : Nat) (st : ServerState) (ws : Nat) (m : InMessage)
    (h1 : m.type ≠ "subscribe") (h2 : m.type ≠ "unsubscribe") (h3 : m.type ≠ "ping") :
    (handleMessage now st ws m).1 = st
    ∧ (isOpen st ws = true →
        (handleMessage now st ws m).2
          = [(ws, ⟨"error", .errorData ("Unknown message type: " ++ m.type), now⟩)]) := by
  refine ⟨?_, ?_⟩
  · simp [handleMessage, h1, h2, h3]
  · intro hopen
    simp [handleMessage, h1, h2, h3, sendError, sendMessage, hopen]

/-- C10 witness: a "bogus" typed message on an open connection changes no
state and draws the unknown-type error reply. -/
theorem C10_unknown_type_witness :
    (handleMessage 7 ⟨[(0, {})], [0]⟩ 0 ⟨"bogus", {}⟩).1 = ⟨[(0, {})], [0]⟩
    ∧ (isOpen ⟨[(0, {})], [0]⟩ 0 = true →
        (handleMessage 7 ⟨[(0, {})], [0]⟩ 0 ⟨"bogus", {}⟩).2
          = [(0, ⟨"error", .errorData ("Unknown message type: " ++ "bogus"), 7⟩)]) :=
  C10_unknown_type 7 ⟨[(0, {})], [0]⟩ 0 ⟨"bogus", {}⟩ (by decide) (by decide) (by decide)

theorem broadcast_eq_filter_map (now : Nat) (st : ServerState) (type : String) (d : MsgData)
    (filt : ClientData → Bool) :
    broadcast now st type d filt
      = (st.clients.filter fun p => filt p.2 && isOpen st p.1).map
          (fun p => (p.1, ⟨type, d, now⟩)) := by
  unfold broadcast sendMessage
  generalize st.clients = l
  induction l with
  | nil => rfl
  | cons a t ih =>
    by_cases h1 : filt a.2 <;> by_cases h2 : isOpen st a.1 <;>
      simp [h1, h2, ih]

/-- C4: for a price-poll batch, the price_update envelopes go exactly to the
registered connections that are open and whose tokens filter meets the
batch; the code's `any`-test is precisely non-empty intersection, so a
connection with no batch token in its filter receives nothing. -/
theorem C4_price_update_filtered (now : Nat) (st : ServerState) (tokenBatch : List String) :
    priceUpdateEvents now st tokenBatch
      = (st.clients.filter fun p =>
            (p.2.tokens.getD []).any (fun t => tokenBatch.contains t) && isOpen st p.1).map
          (fun p => (p.1, ⟨"price_update", .priceUpdateData tokenBatch now, now⟩))
    ∧ ∀ cd : ClientData,
        ((cd.tokens.getD []).any (fun t => tokenBatch.contains t) = true
          ↔ ∃ t, t ∈ cd.tokens.getD [] ∧ t ∈ tokenBatch) := by
  refine ⟨broadcast_eq_filter_map now st "price_update" _ _, ?_⟩
  intro cd
  simp [List.any_eq_true]

/-- C8: every targeted push — portfolio, strategy, notification — reaches
exactly the registered open connections whose stored userId equals the
target userId (the strict-equality test used by the code), and no other
connection. -/
theorem C8_targeted_pushes (now : Nat) (st : ServerState) (userId p : String) :
    sendPortfolioUpdate now st userId p
      = (st.clients.filter fun q => (q.2.userId == some userId) && isOpen st q.1).map
          (fun q => (q.1, ⟨"portfolio_update", .payload p, now⟩))
    ∧ sendStrategyUpdate now st userId p
      = (st.clients.filter fun q => (q.2.userId == some userId) && isOpen st q.1).map
          (fun q => (q.1, ⟨"strategy_update", .payload p, now⟩))
    ∧ sendNotification now st userId p
      = (st.clients.filter fun q => (q.2.userId == some userId) && isOpen st q.1).map
          (fun q => (q.1, ⟨"notification", .payload p, now⟩))
    ∧ ∀ cd : ClientData, ((cd.userId == some userId) = true ↔ cd.userId = some userId) := by
  refine ⟨broadcast_eq_filter_map now st "portfolio_update" _ _,
    broadcast_eq_filter_map now st "strategy_update" _ _,
    broadcast_eq_filter_map now st "notification" _ _, ?_⟩
  intro cd
  simp

/-- C2 (amended): a heartbeat sweep retains a registry entry iff its socket
is open and its lastPing is either unrecorded or at most 60s old — so it
purges exactly the non-open connections and the open ones with a recorded
lastPing older than 60s, and it force-closes (removes from the open set)
every open connection with such a stale recorded ping.  An open connection
that never sent a ping has no lastPing and is never purged. -/
theorem C2_heartbeat_sweep (now : Nat) (st : ServerState) (ws : Nat) (cd : ClientData)
    (p : Nat) :
    ((ws, cd) ∈ (heartbeatSweep now st).1.clients
      ↔ (ws, cd) ∈ st.clients ∧ isOpen st ws = true
          ∧ (cd.lastPing = none ∨ now - cd.lastPing.getD 0 ≤ 60000))
    ∧ ((ws, cd) ∈ st.clients → isOpen st ws = true → cd.lastPing = some p →
        60000 < now - p → ws ∉ (heartbeatSweep now st).1.openConns) := by
  constructor
  · simp only [heartbeatSweep, List.mem_filter]
    constructor
    · rintro ⟨hmem, hstale⟩
      refine ⟨hmem, ?_, ?_⟩
      · by_contra hopen
        simp only [Bool.not_eq_true] at hopen
        simp [isStale, hopen] at hstale
      · rcases hlp : cd.lastPing with _ | q
        · exact Or.inl rfl
        · refine Or.inr ?_
          simp only [isStale, hlp, Bool.not_eq_true] at hstale
          split at hstale
          · simp at hstale
            simpa [hlp] using hstale
          · simp at hstale
    · rintro ⟨hmem, hopen, hfresh⟩
      refine ⟨hmem, ?_⟩
      simp only [isStale, hopen, if_true]
      rcases hlp : cd.lastPing with _ | q
      · simp
      · rcases hfresh with hnone | hle
        · rw [hlp] at hnone; exact absurd hnone (by simp)
        · rw [hlp] at hle
          simp at hle
          simp [hle]
  · intro hmem hopen hlp hold
    intro habs
    simp only [heartbeatSweep, List.mem_filter] at habs
    rcases habs with ⟨-, hnc⟩
    have hws : ws ∈ ((st.clients.filter fun p => isStale now st p.1 p.2).map Prod.fst) := by
      refine List.mem_map.mpr ⟨(ws, cd), ?_, rfl⟩
      refine List.mem_filter.mpr ⟨hmem, ?_⟩
      simp [isStale, hopen, hlp, hold]
    have hc : ((st.clients.filter fun p => isStale now st p.1 p.2).map Prod.fst).contains ws
        = true := by simpa using hws
    rw [hc] at hnc
    simp at hnc

/-- C2 witness: at time 100000 the sweep force-closes and purges the
connection whose lastPing 0 is older than 60s, while the retention test for
a never-pinged open connection holds. -/
theorem C2_heartbeat_sweep_witness :
    ((0, ({ lastPing := some 0 } : ClientData))
        ∈ (heartbeatSweep 100000 ⟨[(0, { lastPing := some 0 }), (1, {})], [0, 1]⟩).1.clients
      ↔ (0, ({ lastPing := some 0 } : ClientData))
            ∈ [(0, ({ lastPing := some 0 } : ClientData)), (1, {})]
          ∧ isOpen ⟨[(0, { lastPing := some 0 }), (1, {})], [0, 1]⟩ 0 = true
          ∧ (({ lastPing := some 0 } : ClientData).lastPing = none
              ∨ 100000 - (({ lastPing := some 0 } : ClientData).lastPing.getD 0) ≤ 60000))
    ∧ 0 ∉ (heartbeatSweep 100000
        ⟨[(0, { lastPing := some 0 }), (1, {})], [0, 1]⟩).1.openConns :=
  ⟨(C2_heartbeat_sweep 100000 ⟨[(0, { lastPing := some 0 }), (1, {})], [0, 1]⟩ 0
      { lastPing := some 0 } 0).1,
   (C2_heartbeat_sweep 100000 ⟨[(0, { lastPing := some 0 }), (1, {})], [0, 1]⟩ 0
      { lastPing := some 0 } 0).2 (by decide) (by decide) (by decide) (by decide)⟩

/-- C2 counterexample: an open connection that never sent a ping (lastPing
unrecorded) is NOT purged by the sweep — the sweep leaves the whole state
unchanged no matter how late it runs, so the claimed
one-sweep-plus-60s purge bound is false. -/
theorem C2_counterexample :
    (heartbeatSweep 1000000000 ⟨[(5, {})], [5]⟩).1 = ⟨[(5, {})], [5]⟩
    ∧ (5, ({} : ClientData)) ∈ (heartbeatSweep 1000000000 ⟨[(5, {})], [5]⟩).1.clients
    ∧ 5 ∈ (heartbeatSweep 1000000000 ⟨[(5, {})], [5]⟩).1.openConns := by
  refine ⟨by decide, by decide, by decide⟩

end Hub

namespace Client

/-- C3: over any run of consecutive close events with reconnect enabled and
a fresh attempt counter, the n-th close (1-indexed, counter incremented
before the delay is computed) schedules a reconnect after
base * 2 ^ min n 5 milliseconds — so capped at 32 times base — for n up to
10, and from the 11th close on no timer is scheduled at all; the counter
saturates at 10. -/
theorem C3_reconnect_backoff (base k : Nat) :
    (runCloses base k).2
        = (List.range k).map (fun i => if i < 10 then some (base * 2 ^ min (i + 1) 5) else none)
      ∧ (runCloses base k).1 = min k 10 := by
  induction k with
  | zero => simp [runCloses]
  | succ k ih =>
    obtain ⟨ih1, ih2⟩ := ih
    by_cases h : k < 10
    · have hmin : min k 10 = k := by omega
      have hmin2 : min (k + 1) 10 = k + 1 := by omega
      simp [runCloses, onCloseReconnect, maxReconnectAttempts, ih1, ih2,
        hmin, hmin2, List.range_succ, h]
    · have hmin : min k 10 = 10 := by omega
      have hmin2 : min (k + 1) 10 = 10 := by omega
      simp [runCloses, onCloseReconnect, maxReconnectAttempts, ih1, ih2,
        hmin, hmin2, List.range_succ, h]

/-- C5: when the module-level singleton holds a transport in OPEN or
CONNECTING state, connect() is a no-op — same reference, no second
transport opened; and whatever the starting state, a second consecutive
connect() invocation never opens another transport. -/
theorem C5_singleton_connect :
    (∀ rs : Nat, rs = Hub.OPEN ∨ rs = Hub.CONNECTING → connect (some rs) = (some rs, false))
    ∧ ∀ s : Option Nat, connect (connect s).1 = ((connect s).1, false) := by
  constructor
  · rintro rs (rfl | rfl) <;> simp [connect, Hub.OPEN, Hub.CONNECTING]
  · intro s
    match s with
    | none => simp [connect, Hub.OPEN, Hub.CONNECTING]
    | some rs =>
      by_cases h1 : rs = Hub.OPEN
      · simp [connect, h1]
      · by_cases h2 : rs = Hub.CONNECTING
        · simp [connect, h1, h2]
        · have h1' : rs ≠ 1 := by simpa [Hub.OPEN] using h1
          have h2' : rs ≠ 0 := by simpa [Hub.CONNECTING] using h2
          simp [connect, Hub.OPEN, Hub.CONNECTING, h1', h2']

/-- C5 witness: connect() with an OPEN singleton and with a CONNECTING
singleton both leave the reference unchanged and open nothing. -/
theorem C5_singleton_connect_witness :
    connect (some Hub.OPEN) = (some Hub.OPEN, false)
    ∧ connect (some Hub.CONNECTING) = (some Hub.CONNECTING, false) :=
  ⟨C5_singleton_connect.1 Hub.OPEN (Or.inl rfl),
   C5_singleton_connect.1 Hub.CONNECTING (Or.inr rfl)⟩

/-- C7: a frame whose payload fails to parse is absorbed at the boundary on
both sides — the hub answers it with an error envelope and changes no
state, so any frame sequence drives the registry to the same state as its
well-formed subsequence alone; the client invokes no callback for it and
dispatches exactly the successfully parsed envelopes, in order. -/
theorem C7_malformed_json_dropped :
    (∀ (now : Nat) (st : Hub.ServerState) (ws : Nat),
        Hub.onRawMessage now st ws none
          = (st, Hub.sendError st ws "Invalid message format" now))
    ∧ (∀ (st : Hub.ServerState) (frames : List (Nat × Nat × Option Hub.InMessage)),
        (Hub.processFrames st frames).1
          = (Hub.processFrames st (frames.filter fun f => f.2.2.isSome)).1)
    ∧ handleMessage none = []
    ∧ ∀ frames : List (Option Hub.WebSocketMessage),
        dispatchFrames frames = frames.filterMap id := by
  refine ⟨fun now st ws => rfl, ?_, rfl, ?_⟩
  · intro st frames
    induction frames generalizing st with
    | nil => rfl
    | cons f rest ih =>
      obtain ⟨now, ws, p⟩ := f
      cases p with
      | some m => simp [Hub.processFrames, List.filter_cons, ih]
      | none => simp [Hub.processFrames, Hub.onRawMessage, List.filter_cons, ih]
  · intro frames
    induction frames with
    | nil => rfl
    | cons f rest ih =>
      cases f <;> simp [dispatchFrames, handleMessage, List.filterMap_cons] <;>
        simpa [dispatchFrames] using ih

/-- C9: the hook's send returns true and transmits the stamped envelope
exactly when the singleton transport is OPEN; in every other state —
including a null reference — it returns false and transmits nothing. being
a total function it never throws. -/
theorem C9_send_returns_open (g : Option Nat) (type p : String) (now : Nat) :
    (sendMessage g type p now = (true, some ⟨type, .payload p, now⟩) ↔ g = some Hub.OPEN)
    ∧ (g ≠ some Hub.OPEN → sendMessage g type p now = (false, none)) := by
  by_cases h : g = some Hub.OPEN
  · subst h
    simp [sendMessage]
  · have hb : (g == some Hub.OPEN) = false := by simp [h]
    exact ⟨by simp [sendMessage, hb, h], fun _ => by simp [sendMessage, hb]⟩

/-- C9 witness: with an OPEN transport send succeeds with the envelope;
with a CLOSED transport it returns false and sends nothing. -/
theorem C9_send_returns_open_witness :
    sendMessage (some Hub.OPEN) "subscribe" "x" 3
        = (true, some ⟨"subscribe", .payload "x", 3⟩)
    ∧ sendMessage (some Hub.CLOSED) "subscribe" "x" 3 = (false, none) :=
  ⟨(C9_send_returns_open (some Hub.OPEN) "subscribe" "x" 3).1.mpr rfl,
   (C9_send_returns_open (some Hub.CLOSED) "subscribe" "x" 3).2 (by decide)⟩

end Client
